import Mathlib

/-
Verification of the Market-Picture analytical engine.

Shallow embedding of the pure computational core of
backend/intelligence/regime.py, backend/intelligence/correlations.py and
the configuration constants of backend/config.py.  Python floats are
modelled as exact rationals; database reads are modelled by passing the
fetched rows explicitly; Python dicts (iterated in insertion order) are
modelled as association lists.  Decimal string formatting of numbers in
human-readable detail strings is abstracted by rendering the exact
rational value; no property proved here depends on the digits.
-/

set_option allowUnsafeReducibility true in
attribute [semireducible] Rat.mul Rat.add Rat.sub Rat.inv Rat.ofScientific

namespace MarketPicture

-- ---------------------------------------------------------------------------
-- Data model (TypedDict result shapes from regime.py / correlations.py)
-- ---------------------------------------------------------------------------

/-- One regime signal evaluation (regime.py, class Signal). -/
structure Signal where
  name : String
  direction : String
  detail : String
deriving DecidableEq

/-- A cluster of assets moving in the same direction (correlations.py). -/
structure CoMovingGroup where
  direction : String
  avg_change_pct : ℚ
  symbols : List String
  labels : List String
deriving DecidableEq

/-- A flagged deviation from expected correlation behaviour (correlations.py). -/
structure CorrelationAnomaly where
  anomaly_type : String
  symbols : List String
  expected : ℚ
  actual : ℚ
  detail : String
deriving DecidableEq

/-- A pair of normally-correlated assets moving in opposite directions. -/
structure DivergingPair where
  symbol_a : String
  symbol_b : String
  label_a : String
  label_b : String
  change_pct_a : ℚ
  change_pct_b : ℚ
  baseline_r : ℚ
deriving DecidableEq

/-- Correlation between one asset pair (correlations.py). -/
structure PairCorrelation where
  symbol_a : String
  symbol_b : String
  correlation : ℚ
  data_points : ℕ
deriving DecidableEq

-- ---------------------------------------------------------------------------
-- Configuration (backend/config.py)
-- ---------------------------------------------------------------------------

/-- REGIME_THRESHOLDS entry vixy_spike_pct. -/
def vixy_spike_pct : ℚ := 5

/-- REGIME_THRESHOLDS entry vixy_drop_pct. -/
def vixy_drop_pct : ℚ := -5

/-- REGIME_THRESHOLDS entry hy_spread_risk_off: HY spread above this is risk-off. -/
def hy_spread_risk_off : ℚ := 5

/-- REGIME_THRESHOLDS entry hy_spread_risk_on: HY spread below this is risk-on. -/
def hy_spread_risk_on : ℚ := 7/2

/-- REGIME_THRESHOLDS entry hy_spread_widening_bps. -/
def hy_spread_widening_bps : ℚ := 10

/-- REGIME_THRESHOLDS entry correlation_threshold. -/
def correlation_threshold : ℚ := 7/10

/-- CORRELATION_CONFIG entry min_data_points (the configured minimum sample
size for a Pearson correlation; the code applies int() to it). -/
def min_data_points : ℕ := 5

/-- CORRELATION_CONFIG entry anomaly_deviation_threshold. -/
def anomaly_deviation_threshold : ℚ := 2/5

/-- CORRELATION_CONFIG entry comovement_magnitude_band. -/
def comovement_magnitude_band : ℚ := 3/2

/-- CORRELATION_CONFIG entry comovement_min_change_pct. -/
def comovement_min_change_pct : ℚ := 3/10

/-- CORRELATION_CONFIG entry diverging_baseline_threshold. -/
def diverging_baseline_threshold : ℚ := 1/2

/-- ASSETS: category to (symbol to human label), in source order. -/
def ASSETS : List (String × List (String × String)) :=
  [ ("equities",
      [ ("SPX", "S&P 500"), ("NDX", "Nasdaq 100"), ("IWM", "Russell 2000"),
        ("VIXY", "VIX (Short-Term Futures)") ]),
    ("international",
      [ ("EWJ", "Japan (EWJ)"), ("UKX", "FTSE 100"),
        ("FEZ", "Euro Stoxx 50 (FEZ)"), ("EWH", "Hong Kong (EWH)") ]),
    ("currencies", [ ("UUP", "US Dollar (UUP)") ]),
    ("commodities",
      [ ("WTI", "Crude Oil (WTI)"), ("NG", "Natural Gas"), ("XAU", "Gold"),
        ("CPER", "Copper (CPER)") ]),
    ("critical_minerals",
      [ ("URA", "Uranium ETF"), ("LIT", "Lithium ETF"),
        ("REMX", "Rare Earths ETF") ]),
    ("crypto", [ ("BTC/USD", "Bitcoin"), ("ETH/USD", "Ethereum") ]) ]

/-- FRED_SERIES: series id to human label. -/
def FRED_SERIES : List (String × String) :=
  [ ("DGS2", "2-Year Treasury Yield"), ("DGS10", "10-Year Treasury Yield"),
    ("BAMLC0A0CM", "IG Corporate Bond Spread"),
    ("BAMLH0A0HYM2", "HY Corporate Bond Spread") ]

/-- BASELINE_CORRELATIONS: expected long-run correlation per canonical
symbol pair, in source (insertion) order. -/
def BASELINE_CORRELATIONS : List ((String × String) × ℚ) :=
  [ (("NDX", "SPX"), 9/10),
    (("IWM", "SPX"), 85/100),
    (("IWM", "NDX"), 8/10),
    (("FEZ", "UKX"), 85/100),
    (("SPX", "VIXY"), -8/10),
    (("BTC/USD", "NDX"), 15/100),
    (("BTC/USD", "IWM"), 1/10),
    (("BTC/USD", "SPX"), 1/10),
    (("ETH/USD", "SPX"), 1/10),
    (("LIT", "NDX"), 45/100),
    (("LIT", "SPX"), 1/2),
    (("NDX", "REMX"), 2/5),
    (("NDX", "URA"), 35/100),
    (("REMX", "SPX"), 45/100),
    (("SPX", "URA"), 2/5),
    (("LIT", "REMX"), 65/100),
    (("LIT", "URA"), 55/100),
    (("REMX", "URA"), 6/10),
    (("DGS10", "SPX"), 15/100),
    (("SPX", "UUP"), -2/10),
    (("SPX", "WTI"), 35/100),
    (("SPX", "XAU"), -1/10),
    (("CPER", "SPX"), 1/2) ]

-- ---------------------------------------------------------------------------
-- Shared helpers (correlations.py)
-- ---------------------------------------------------------------------------

/-- Decimal formatting of a number inside a detail string is abstracted by
rendering the exact rational (the code uses Python format specifiers). -/
def fmtQ (q : ℚ) : String := toString q

/-- Lexicographic comparison of char lists by code point, as Python compares
strings. -/
def charListLe : List Char → List Char → Bool
  | [], _ => true
  | _ :: _, [] => false
  | a :: as, b :: bs => if a < b then true else if b < a then false else charListLe as bs

/-- String comparison by code point (Python string ordering). -/
def strLe (a b : String) : Bool := charListLe a.data b.data

/-- Insert an element into a sorted list, before the first element it
compares le to (so an element is placed before later-arriving ties). -/
def insertLe {α : Type} (le : α → α → Bool) (x : α) : List α → List α
  | [] => [x]
  | y :: ys => if le x y then x :: y :: ys else y :: insertLe le x ys

/-- Stable sort with respect to a total boolean preorder.  Python list.sort
and sorted are stable, and any two stable sorts agree extensionally, so this
insertion sort models them faithfully. -/
def stableSort {α : Type} (le : α → α → Bool) : List α → List α
  | [] => []
  | x :: xs => insertLe le x (stableSort le xs)

/-- _label: look up the human-readable name for a symbol. -/
def _label (symbol : String) : String :=
  match ASSETS.findSome? (fun cat => cat.2.lookup symbol) with
  | some name => name
  | none =>
    match FRED_SERIES.lookup symbol with
    | some name => name
    | none => symbol

/-- _normalize_pair: return a symbol pair in canonical sorted order. -/
def _normalize_pair (a b : String) : String × String :=
  if strLe a b then (a, b) else (b, a)

/-- The substring sub occurs somewhere inside s. -/
def mentions (sub s : String) : Prop := ∃ u v, s = u ++ (sub ++ v)

-- ---------------------------------------------------------------------------
-- Regime classification (regime.py)
-- ---------------------------------------------------------------------------

/-- Number of signals with direction risk_on (regime.py _classify, first sum). -/
def risk_on_count (signals : List Signal) : ℕ :=
  signals.countP (fun s => s.direction == "risk_on")

/-- Number of signals with direction risk_off (regime.py _classify, second sum). -/
def risk_off_count (signals : List Signal) : ℕ :=
  signals.countP (fun s => s.direction == "risk_off")

/-- _classify: determine regime label from signal directions. -/
def _classify (signals : List Signal) : String :=
  if 2 ≤ risk_off_count signals then "RISK-OFF"
  else if 2 ≤ risk_on_count signals ∧ risk_off_count signals = 0 then "RISK-ON"
  else "MIXED"

/-- _build_reason: join non-neutral signal details, or a fixed fallback. -/
def _build_reason (signals : List Signal) : String :=
  let parts := (signals.filter (fun s => s.direction != "neutral")).map Signal.detail
  if parts = [] then "Insufficient data for regime classification"
  else String.intercalate "; " parts

/-- Fallback tail of _eval_hy_spread: tight-level check, then neutral
(regime.py lines 203-211). -/
def _hy_level_fallback (spread : ℚ) : Signal :=
  if spread < hy_spread_risk_on then
    ⟨"hy_spread", "risk_on", "HY spreads tight (" ++ fmtQ spread ++ "%)"⟩
  else
    ⟨"hy_spread", "neutral", "HY spread neutral (" ++ fmtQ spread ++ "%)"⟩

/-- _eval_hy_spread: HY credit spread level and week-over-week trend.  The
two database reads (latest snapshot and the closest snapshot at least 7
days old) are passed in explicitly as the price of each row, none when the
row is missing. -/
def _eval_hy_spread (latest : Option ℚ) (week_ago : Option ℚ) : Signal :=
  match latest with
  | none => ⟨"hy_spread", "neutral", "HY spread data unavailable"⟩
  | some spread =>
    if hy_spread_risk_off < spread then
      ⟨"hy_spread", "risk_off", "HY spread elevated (" ++ fmtQ spread ++ "%)"⟩
    else
      match week_ago with
      | some w =>
        if hy_spread_widening_bps < (spread - w) * 100 then
          ⟨"hy_spread", "risk_off",
            "HY spreads widening (+" ++ fmtQ ((spread - w) * 100) ++ " bps WoW)"⟩
        else _hy_level_fallback spread
      | none => _hy_level_fallback spread

-- ---------------------------------------------------------------------------
-- Return series and Pearson correlation (correlations.py)
-- ---------------------------------------------------------------------------

/-- _compute_daily_returns: daily percent changes from a (date, price)
series; an entry whose prior price is zero is skipped. -/
def _compute_daily_returns : List (String × ℚ) → List (String × ℚ)
  | [] => []
  | [_] => []
  | (_, p₀) :: (d₁, p₁) :: rest =>
    if p₀ = 0 then _compute_daily_returns ((d₁, p₁) :: rest)
    else (d₁, (p₁ - p₀) / p₀ * 100) :: _compute_daily_returns ((d₁, p₁) :: rest)

/-- Arithmetic mean of a list (sum(xs) / n in _pearson_r). -/
def listMean (l : List ℚ) : ℚ := l.sum / l.length

/-- Sum of squared deviations from the mean (var_x in _pearson_r; zero
exactly when the list has zero variance). -/
def listSqDev (l : List ℚ) : ℚ := (l.map (fun x => (x - listMean l) ^ 2)).sum

/-- Sum of products of deviations (cov in _pearson_r, over two equal-length
truncated lists). -/
def listCoDev (xs ys : List ℚ) : ℚ :=
  ((xs.zip ys).map (fun p => (p.1 - listMean xs) * (p.2 - listMean ys))).sum

/-- _pearson_r: Pearson correlation coefficient between two series, none if
the series are too short or have zero variance.  The square root is taken in
the reals. -/
noncomputable def _pearson_r (xs ys : List ℚ) : Option ℝ :=
  let n := min xs.length ys.length
  if n < min_data_points then none
  else
    let xs' := xs.take n
    let ys' := ys.take n
    if listSqDev xs' = 0 ∨ listSqDev ys' = 0 then none
    else some ((listCoDev xs' ys' : ℝ) /
      Real.sqrt ((listSqDev xs' * listSqDev ys' : ℚ) : ℝ))

/-- The spec's formula for the Pearson coefficient: cov(x,y) divided by
sqrt(var(x) * var(y)), with covariance and variances normalised by the
sample size, over the two sequences truncated to the shorter length.  Stated
separately from _pearson_r to compare the two. -/
noncomputable def pearson_spec (xs ys : List ℚ) : ℝ :=
  let n := min xs.length ys.length
  let xs' := xs.take n
  let ys' := ys.take n
  ((listCoDev xs' ys' / n : ℚ) : ℝ) /
    Real.sqrt (((listSqDev xs' / n : ℚ) : ℝ) * ((listSqDev ys' / n : ℚ) : ℝ))

-- ---------------------------------------------------------------------------
-- Single-day anomaly and diverging-pair detectors (correlations.py)
-- ---------------------------------------------------------------------------

/-- Latest snapshot row per symbol; the 1D detectors read only the
change_pct field, which may be NULL.  A missing key models a symbol with no
snapshot at all. -/
abbrev Snapshots := List (String × Option ℚ)

/-- Both percent changes are strictly positive or both strictly negative
(the same_direction test in correlations.py). -/
def sameDirection (pct_a pct_b : ℚ) : Prop :=
  (0 < pct_a ∧ 0 < pct_b) ∨ (pct_a < 0 ∧ pct_b < 0)

instance (pct_a pct_b : ℚ) : Decidable (sameDirection pct_a pct_b) :=
  inferInstanceAs (Decidable ((0 < pct_a ∧ 0 < pct_b) ∨ (pct_a < 0 ∧ pct_b < 0)))

/-- The broken_correlation record for a normally inverse pair moving the
same way today (_detect_1d_anomalies, first clause). -/
def brokenSameRec (sym_a sym_b : String) (e pct_a pct_b : ℚ) :
    CorrelationAnomaly :=
  ⟨"broken_correlation", [sym_a, sym_b], e, 0,
    _label sym_a ++ " and " ++ _label sym_b
      ++ " moving in the same direction today (" ++ fmtQ pct_a ++ "% and "
      ++ fmtQ pct_b ++ "%)"⟩

/-- The unexpected_convergence record for a normally uncorrelated pair in
lockstep today (_detect_1d_anomalies, second clause). -/
def convergenceRec (sym_a sym_b : String) (e pct_a pct_b : ℚ) :
    CorrelationAnomaly :=
  ⟨"unexpected_convergence", [sym_a, sym_b], e, 0,
    _label sym_a ++ " and " ++ _label sym_b ++ " moving together today ("
      ++ fmtQ pct_a ++ "% and " ++ fmtQ pct_b ++ "%)"⟩

/-- The broken_correlation record for a normally co-moving pair moving
opposite today (_detect_1d_anomalies, third clause). -/
def brokenOppositeRec (sym_a sym_b : String) (e pct_a pct_b : ℚ) :
    CorrelationAnomaly :=
  ⟨"broken_correlation", [sym_a, sym_b], e, 0,
    _label sym_a ++ " and " ++ _label sym_b
      ++ " moving in opposite directions today (" ++ fmtQ pct_a ++ "% vs "
      ++ fmtQ pct_b ++ "%)"⟩

/-- Loop body of _detect_1d_anomalies for one baseline-table entry: resolve
the two snapshots, apply the minimum-change skip, then append one record per
matching clause. -/
def pairAnomalies1d (snapshots : Snapshots) :
    (String × String) × ℚ → List CorrelationAnomaly
  | ((sym_a, sym_b), expected) =>
    match snapshots.lookup sym_a, snapshots.lookup sym_b with
    | some (some pct_a), some (some pct_b) =>
      if |pct_a| < comovement_min_change_pct
          ∧ |pct_b| < comovement_min_change_pct then []
      else
        (if expected < -(1/2) ∧ sameDirection pct_a pct_b then
          [brokenSameRec sym_a sym_b expected pct_a pct_b] else [])
        ++ (if |expected| < 3/10 ∧ sameDirection pct_a pct_b
              ∧ comovement_min_change_pct ≤ |pct_a|
              ∧ comovement_min_change_pct ≤ |pct_b| then
          [convergenceRec sym_a sym_b expected pct_a pct_b] else [])
        ++ (if 1/2 < expected ∧ ¬ sameDirection pct_a pct_b
              ∧ comovement_min_change_pct ≤ |pct_a|
              ∧ comovement_min_change_pct ≤ |pct_b| then
          [brokenOppositeRec sym_a sym_b expected pct_a pct_b] else [])
    | _, _ => []

/-- _detect_1d_anomalies: anomalous co-movement from single-day changes,
one pass over the baseline table. -/
def _detect_1d_anomalies (snapshots : Snapshots) : List CorrelationAnomaly :=
  BASELINE_CORRELATIONS.flatMap (pairAnomalies1d snapshots)

/-- Loop body of _detect_diverging_pairs for one baseline-table entry. -/
def divergeCheck (snapshots : Snapshots) :
    (String × String) × ℚ → Option DivergingPair
  | ((sym_a, sym_b), expected) =>
    if expected < diverging_baseline_threshold then none
    else
      match snapshots.lookup sym_a, snapshots.lookup sym_b with
      | some (some pct_a), some (some pct_b) =>
        if |pct_a| < comovement_min_change_pct
            ∨ |pct_b| < comovement_min_change_pct then none
        else if sameDirection pct_a pct_b then none
        else some ⟨sym_a, sym_b, _label sym_a, _label sym_b,
          pct_a, pct_b, expected⟩
      | _, _ => none

/-- _detect_diverging_pairs: normally-correlated pairs moving in opposite
directions today. -/
def _detect_diverging_pairs (snapshots : Snapshots) : List DivergingPair :=
  BASELINE_CORRELATIONS.filterMap (divergeCheck snapshots)

-- ---------------------------------------------------------------------------
-- Scarcity divergence, co-movement grouping (correlations.py)
-- ---------------------------------------------------------------------------

/-- _SCARCITY_SYMBOLS: critical mineral ETFs. -/
def _SCARCITY_SYMBOLS : List String := ["URA", "LIT", "REMX"]

/-- _RISK_SYMBOLS: the broad-risk symbols the scarcity detector compares
against, as written in correlations.py. -/
def _RISK_SYMBOLS : List String := ["SPY", "QQQ"]

/-- Pairwise correlation matrix keyed by canonical pair (a Python dict in
insertion order). -/
abbrev PairMatrix := List ((String × String) × PairCorrelation)

/-- Per-symbol return series (a Python dict in insertion order). -/
abbrev ReturnsBySymbol := List (String × List (String × ℚ))

/-- Loop body of _detect_scarcity_divergence for one (scarcity, risk)
combination. -/
def scarcityCheck (pair_correlations : PairMatrix) (scarcity risk : String) :
    Option CorrelationAnomaly :=
  let pair_key := _normalize_pair scarcity risk
  match pair_correlations.lookup pair_key,
      BASELINE_CORRELATIONS.lookup pair_key with
  | some pc, some expected =>
    if pc.correlation < expected - anomaly_deviation_threshold then
      some ⟨"scarcity_divergence", [scarcity, risk], expected, pc.correlation,
        _label scarcity ++ " is diverging from " ++ _label risk ++ " (r="
          ++ fmtQ pc.correlation ++ ", normally ~" ++ fmtQ expected ++ ")"⟩
    else none
  | _, _ => none

/-- _detect_scarcity_divergence: critical mineral ETFs diverging from broad
equity risk. -/
def _detect_scarcity_divergence (pair_correlations : PairMatrix) :
    List CorrelationAnomaly :=
  _SCARCITY_SYMBOLS.flatMap (fun scarcity =>
    _RISK_SYMBOLS.filterMap (scarcityCheck pair_correlations scarcity))

/-- Python round(x, 2): round to two decimals, halves to even, on exact
rationals. -/
def round2 (q : ℚ) : ℚ :=
  let scaled := q * 100
  let fl : ℤ := ⌊scaled⌋
  let frac : ℚ := scaled - fl
  let n : ℤ :=
    if 1/2 < frac then fl + 1
    else if frac < 1/2 then fl
    else if fl % 2 = 0 then fl else fl + 1
  (n : ℚ) / 100

/-- Greedy banding walk of _group_by_comovement: cur is the open cluster,
lastPct the percent change of its last-added member. -/
def bandClusterGo (band : ℚ) (cur : List (String × ℚ)) (lastPct : ℚ) :
    List (String × ℚ) → List (List (String × ℚ))
  | [] => [cur]
  | (sym, pct) :: rest =>
    if |(|pct| - |lastPct|)| ≤ band then
      bandClusterGo band (cur ++ [(sym, pct)]) pct rest
    else cur :: bandClusterGo band [(sym, pct)] pct rest

/-- Cluster a magnitude-sorted bucket into bands (clusters list of
_group_by_comovement). -/
def bandClusters (band : ℚ) : List (String × ℚ) → List (List (String × ℚ))
  | [] => []
  | x :: rest => bandClusterGo band [x] x.2 rest

/-- One direction's pass of _group_by_comovement: sort by magnitude
descending, band, drop clusters of size below 2, emit groups. -/
def mkDirectionGroups (direction : String) (assets : List (String × ℚ)) :
    List CoMovingGroup :=
  if assets = [] then []
  else
    let sorted := stableSort (fun x y => decide (|y.2| ≤ |x.2|)) assets
    (bandClusters comovement_magnitude_band sorted).filterMap (fun cluster =>
      if cluster.length < 2 then none
      else some ⟨direction,
        round2 ((cluster.map Prod.snd).sum / cluster.length),
        cluster.map Prod.fst, (cluster.map Prod.fst).map _label⟩)

/-- _group_by_comovement: group assets by direction and magnitude for the
1D period.  The up bucket takes changes at or above the minimum, the down
bucket (an elif) changes at or below its negation. -/
def _group_by_comovement (snapshots : Snapshots) : List CoMovingGroup :=
  let up := snapshots.filterMap (fun p =>
    match p.2 with
    | some pct =>
      if comovement_min_change_pct ≤ pct then some (p.1, pct) else none
    | none => none)
  let down := snapshots.filterMap (fun p =>
    match p.2 with
    | some pct =>
      if comovement_min_change_pct ≤ pct then none
      else if pct ≤ -comovement_min_change_pct then some (p.1, pct) else none
    | none => none)
  mkDirectionGroups "up" up ++ mkDirectionGroups "down" down

/-- Python set.add: append if absent (order irrelevant, the group is sorted
before emission). -/
def listInsert (x : String) (l : List String) : List String :=
  if x ∈ l then l else l ++ [x]

/-- Merge step of _group_by_correlation: add both members to the first
existing group containing either, else append a new group of the pair. -/
def addPairToGroups : List (List String) → String → String → List (List String)
  | [], a, b => [listInsert b (listInsert a [])]
  | g :: gs, a, b =>
    if a ∈ g ∨ b ∈ g then (listInsert b (listInsert a g)) :: gs
    else g :: addPairToGroups gs a b

/-- _group_by_correlation: greedy merge of pairs at or above the threshold,
sorted by correlation descending; groups of size below 2 are dropped;
direction comes from the mean of each member's last daily return (missing
or empty series contribute nothing; no contributors give mean 0, hence
up). -/
def _group_by_correlation (pair_correlations : PairMatrix)
    (returns_by_symbol : ReturnsBySymbol) (threshold : ℚ) :
    List CoMovingGroup :=
  let high_pairs := stableSort
    (fun x y => decide (y.2.correlation ≤ x.2.correlation))
    (pair_correlations.filter (fun pc => threshold ≤ pc.2.correlation))
  let groups := high_pairs.foldl
    (fun gs pair => addPairToGroups gs pair.1.1 pair.1.2) []
  groups.filterMap (fun group =>
    if group.length < 2 then none
    else
      let syms := stableSort strLe group
      let lasts := syms.filterMap (fun sym =>
        (returns_by_symbol.lookup sym).bind
          (fun series => series.getLast?.map Prod.snd))
      let avg : ℚ := if lasts.length = 0 then 0 else lasts.sum / lasts.length
      some ⟨if 0 ≤ avg then "up" else "down", round2 avg,
        syms, syms.map _label⟩)

-- ===========================================================================
-- Theorems
-- ===========================================================================

/-- C1: for every list of five signals, the regime label is RISK-OFF when the
number of risk_off signals is at least 2 (regardless of the risk_on count);
otherwise RISK-ON when the risk_on count is at least 2 and the risk_off count
is exactly 0; otherwise MIXED. -/
theorem classify_characterization (signals : List Signal)
    (h5 : signals.length = 5) :
    (_classify signals = "RISK-OFF" ↔ 2 ≤ risk_off_count signals)
    ∧ (_classify signals = "RISK-ON" ↔
        (2 ≤ risk_on_count signals ∧ risk_off_count signals = 0))
    ∧ (_classify signals = "MIXED" ↔
        (¬ 2 ≤ risk_off_count signals
          ∧ ¬ (2 ≤ risk_on_count signals ∧ risk_off_count signals = 0))) := by
  have hoffon : ("RISK-OFF" : String) ≠ "RISK-ON" := by decide
  have hoffmx : ("RISK-OFF" : String) ≠ "MIXED" := by decide
  have honmx : ("RISK-ON" : String) ≠ "MIXED" := by decide
  unfold _classify
  split_ifs with h1 h2
  · refine ⟨⟨fun _ => h1, fun _ => rfl⟩, ⟨fun h => absurd h hoffon, ?_⟩,
      ⟨fun h => absurd h hoffmx, ?_⟩⟩
    · rintro ⟨-, h0⟩
      omega
    · rintro ⟨hn, -⟩
      exact absurd h1 hn
  · exact ⟨⟨fun h => absurd h.symm hoffon, fun h => absurd h h1⟩,
      ⟨fun _ => h2, fun _ => rfl⟩,
      ⟨fun h => absurd h honmx, fun h => absurd h2 h.2⟩⟩
  · exact ⟨⟨fun h => absurd h.symm hoffmx, fun h => absurd h h1⟩,
      ⟨fun h => absurd h.symm honmx, fun h => absurd h h2⟩,
      ⟨fun _ => ⟨h1, h2⟩, fun _ => rfl⟩⟩

/-- Witness for C1: a concrete five-signal list with two risk_on and no
risk_off classifies as RISK-ON. -/
theorem classify_characterization_witness :
    _classify
      [⟨"spx_trend", "risk_on", "a"⟩, ⟨"vix", "risk_on", "b"⟩,
        ⟨"hy_spread", "neutral", "c"⟩, ⟨"dxy", "neutral", "d"⟩,
        ⟨"gold_vs_equities", "neutral", "e"⟩] = "RISK-ON" :=
  (classify_characterization
      [⟨"spx_trend", "risk_on", "a"⟩, ⟨"vix", "risk_on", "b"⟩,
        ⟨"hy_spread", "neutral", "c"⟩, ⟨"dxy", "neutral", "d"⟩,
        ⟨"gold_vs_equities", "neutral", "e"⟩] (by decide)).2.1.mpr (by decide)

/-- Counterexample for C4: five signals with two risk_on and two risk_off
classify as RISK-OFF, not MIXED, refuting the claim that any list with at
least 2 risk_on and at least 1 risk_off is labelled MIXED. -/
theorem classify_two_on_two_off_counterexample :
    2 ≤ risk_on_count
        [⟨"spx_trend", "risk_on", "a"⟩, ⟨"vix", "risk_on", "b"⟩,
          ⟨"hy_spread", "risk_off", "c"⟩, ⟨"dxy", "risk_off", "d"⟩,
          ⟨"gold_vs_equities", "neutral", "e"⟩]
    ∧ 1 ≤ risk_off_count
        [⟨"spx_trend", "risk_on", "a"⟩, ⟨"vix", "risk_on", "b"⟩,
          ⟨"hy_spread", "risk_off", "c"⟩, ⟨"dxy", "risk_off", "d"⟩,
          ⟨"gold_vs_equities", "neutral", "e"⟩]
    ∧ _classify
        [⟨"spx_trend", "risk_on", "a"⟩, ⟨"vix", "risk_on", "b"⟩,
          ⟨"hy_spread", "risk_off", "c"⟩, ⟨"dxy", "risk_off", "d"⟩,
          ⟨"gold_vs_equities", "neutral", "e"⟩] = "RISK-OFF"
    ∧ ("RISK-OFF" : String) ≠ "MIXED" := by decide

/-- C4 (amended): for every list of five signals with at least 2 risk_on and
at least 1 risk_off, the label is never RISK-ON; it is MIXED exactly when the
risk_off count is 1 (with 2 or more risk_off it is RISK-OFF). -/
theorem classify_on_with_off_never_risk_on (signals : List Signal)
    (h5 : signals.length = 5) (hon : 2 ≤ risk_on_count signals)
    (hoff : 1 ≤ risk_off_count signals) :
    _classify signals ≠ "RISK-ON"
    ∧ (_classify signals = "MIXED" ↔ risk_off_count signals = 1)
    ∧ (2 ≤ risk_off_count signals → _classify signals = "RISK-OFF") := by
  unfold _classify
  split_ifs with h1 h2
  · exact ⟨by decide, ⟨fun h => absurd h (by decide), fun h => by omega⟩,
      fun _ => rfl⟩
  · omega
  · exact ⟨by decide, ⟨fun _ => by omega, fun _ => rfl⟩, fun h => absurd h h1⟩

/-- Witness for C4 (amended): two risk_on and one risk_off give MIXED. -/
theorem classify_on_with_off_never_risk_on_witness :
    _classify
      [⟨"spx_trend", "risk_on", "a"⟩, ⟨"vix", "risk_on", "b"⟩,
        ⟨"hy_spread", "risk_off", "c"⟩, ⟨"dxy", "neutral", "d"⟩,
        ⟨"gold_vs_equities", "neutral", "e"⟩] = "MIXED" :=
  (classify_on_with_off_never_risk_on
      [⟨"spx_trend", "risk_on", "a"⟩, ⟨"vix", "risk_on", "b"⟩,
        ⟨"hy_spread", "risk_off", "c"⟩, ⟨"dxy", "neutral", "d"⟩,
        ⟨"gold_vs_equities", "neutral", "e"⟩]
      (by decide) (by decide) (by decide)).2.1.mpr (by decide)

/-- C5: whenever the latest HY-spread level is above the elevated threshold
(default 5.0), the evaluator returns risk_off with a detail mentioning
"elevated", independently of the week-over-week observation; when the level
is not elevated, week-over-week widening beyond the bps threshold returns
risk_off (mentioning "widening") before the tight-level check; only
otherwise does a tight level return risk_on. -/
theorem hy_spread_priority (spread : ℚ) (week_ago : Option ℚ) :
    (hy_spread_risk_off < spread →
      (_eval_hy_spread (some spread) week_ago).direction = "risk_off"
      ∧ mentions "elevated" (_eval_hy_spread (some spread) week_ago).detail)
    ∧ (∀ w : ℚ, week_ago = some w → ¬ hy_spread_risk_off < spread →
        hy_spread_widening_bps < (spread - w) * 100 →
        (_eval_hy_spread (some spread) week_ago).direction = "risk_off"
        ∧ mentions "widening" (_eval_hy_spread (some spread) week_ago).detail)
    ∧ (∀ w : ℚ, week_ago = some w → ¬ hy_spread_risk_off < spread →
        ¬ hy_spread_widening_bps < (spread - w) * 100 →
        spread < hy_spread_risk_on →
        (_eval_hy_spread (some spread) week_ago).direction = "risk_on")
    ∧ (week_ago = none → ¬ hy_spread_risk_off < spread →
        spread < hy_spread_risk_on →
        (_eval_hy_spread (some spread) week_ago).direction = "risk_on") := by
  refine ⟨fun h => ?_, fun w hw h1 h2 => ?_, fun w hw h1 h2 h3 => ?_,
    fun hw h1 h3 => ?_⟩
  · simp only [_eval_hy_spread, if_pos h]
    exact ⟨trivial, "HY spread ", " (" ++ fmtQ spread ++ "%)", rfl⟩
  · subst hw
    simp only [_eval_hy_spread, if_neg h1, if_pos h2]
    exact ⟨trivial, "HY spreads ", " (+" ++ fmtQ ((spread - w) * 100) ++ " bps WoW)", rfl⟩
  · subst hw
    simp only [_eval_hy_spread, if_neg h1, if_neg h2, _hy_level_fallback,
      if_pos h3]
  · subst hw
    simp only [_eval_hy_spread, if_neg h1, _hy_level_fallback, if_pos h3]

/-- Witness for C5: level 5.5 with a week-ago level of 4.0 present (which
would also satisfy the widening check) still reports the elevated risk_off
signal. -/
theorem hy_spread_priority_witness :
    (_eval_hy_spread (some (11/2)) (some 4)).direction = "risk_off"
    ∧ mentions "elevated" (_eval_hy_spread (some (11/2)) (some 4)).detail :=
  (hy_spread_priority (11/2) (some 4)).1 (by norm_num [hy_spread_risk_off])

/-- The return-series loop is the filterMap of the consecutive-pairs list. -/
theorem compute_daily_returns_eq_filterMap (s : List (String × ℚ)) :
    _compute_daily_returns s
      = (s.zip s.tail).filterMap
          (fun p => if p.1.2 = 0 then none
            else some (p.2.1, (p.2.2 - p.1.2) / p.1.2 * 100)) := by
  induction s with
  | nil => rfl
  | cons a t ih =>
    cases t with
    | nil => rfl
    | cons b u =>
      obtain ⟨d₀, p₀⟩ := a
      obtain ⟨d₁, p₁⟩ := b
      by_cases h : p₀ = 0
      · simp [_compute_daily_returns, h, ih]
      · simp [_compute_daily_returns, h, ih]

/-- When a function is never none on a list, filterMap keeps its length. -/
theorem length_filterMap_of_isSome {α β : Type} (f : α → Option β) :
    ∀ l : List α, (∀ x ∈ l, f x ≠ none) → (l.filterMap f).length = l.length := by
  intro l
  induction l with
  | nil => simp
  | cons a t ih =>
    intro h
    cases hfa : f a with
    | none => exact absurd hfa (h a (by simp))
    | some b =>
      simp only [List.filterMap_cons, hfa, List.length_cons]
      rw [ih (fun x hx => h x (by simp [hx]))]

/-- C9: the return-series builder emits, for each index from 1 on whose
prior price is nonzero, the percent change (price i - price (i-1)) divided
by price (i-1) times 100, skipping entries with a zero prior price; zero or
one price yields an empty series, and with no zero prices the output has
exactly n - 1 entries for n prices. -/
theorem compute_daily_returns_spec (s : List (String × ℚ)) :
    _compute_daily_returns s
      = (s.zip s.tail).filterMap
          (fun p => if p.1.2 = 0 then none
            else some (p.2.1, (p.2.2 - p.1.2) / p.1.2 * 100))
    ∧ (s.length ≤ 1 → _compute_daily_returns s = [])
    ∧ ((∀ p ∈ s, p.2 ≠ 0) →
        (_compute_daily_returns s).length = s.length - 1) := by
  refine ⟨compute_daily_returns_eq_filterMap s, ?_, ?_⟩
  · match s with
    | [] => intro _; rfl
    | [_] => intro _; rfl
    | _ :: _ :: _ => intro h; simp at h
  · intro hnz
    rw [compute_daily_returns_eq_filterMap]
    rw [length_filterMap_of_isSome _ _ ?_]
    · rw [List.length_zip, List.length_tail]
      omega
    · intro p hp
      have hmem := (List.of_mem_zip hp).1
      have := hnz p.1 hmem
      simp [this]

/-- Witness for C9: three nonzero prices yield exactly two return entries. -/
theorem compute_daily_returns_spec_witness :
    (_compute_daily_returns [("d1", 1), ("d2", 2), ("d3", 4)]).length = 3 - 1 :=
  (compute_daily_returns_spec [("d1", 1), ("d2", 2), ("d3", 4)]).2.2 (by decide)

/-- The sum of squared deviations is nonnegative. -/
theorem listSqDev_nonneg (l : List ℚ) : 0 ≤ listSqDev l := by
  apply List.sum_nonneg
  intro x hx
  obtain ⟨y, -, rfl⟩ := List.mem_map.mp hx
  positivity

/-- A constant list has zero sum of squared deviations. -/
theorem listSqDev_const (l : List ℚ) (c : ℚ) (h : ∀ x ∈ l, x = c) :
    listSqDev l = 0 := by
  cases l with
  | nil => rfl
  | cons a t =>
    have hlen : ((a :: t).length : ℚ) ≠ 0 := by
      exact_mod_cast Nat.cast_add_one_ne_zero t.length
    have hsum : (a :: t).sum = (a :: t).length • c :=
      List.sum_eq_card_nsmul _ _ h
    have hmean : listMean (a :: t) = c := by
      unfold listMean
      rw [hsum, nsmul_eq_mul, mul_comm, mul_div_assoc, div_self hlen, mul_one]
    apply List.sum_eq_zero
    intro x hx
    obtain ⟨y, hy, rfl⟩ := List.mem_map.mp hx
    rw [hmean, h y hy]
    ring

/-- C2: the Pearson computation is undefined exactly when the length after
truncating both series to the shorter one is below the configured minimum
sample size (default 5) or either truncated series has zero variance (zero
sum of squared deviations); in every other case it returns the standard
Pearson coefficient cov(x,y) / sqrt(var(x) * var(y)); and a constant series
against any other series is always undefined. -/
theorem pearson_r_characterization (xs ys : List ℚ) :
    (_pearson_r xs ys = none ↔
      min xs.length ys.length < min_data_points
      ∨ listSqDev (xs.take (min xs.length ys.length)) = 0
      ∨ listSqDev (ys.take (min xs.length ys.length)) = 0)
    ∧ (∀ r : ℝ, _pearson_r xs ys = some r → r = pearson_spec xs ys)
    ∧ (∀ c : ℚ, (∀ x ∈ xs, x = c) → _pearson_r xs ys = none) := by
  refine ⟨?_, ?_, ?_⟩
  · unfold _pearson_r
    dsimp only
    split_ifs with h1 h2
    · simp [h1]
    · simp [h1, h2]
    · simp only [reduceCtorEq, false_iff]
      push_neg
      exact ⟨not_lt.mp h1, (not_or.mp h2).1, (not_or.mp h2).2⟩
  · intro r hr
    unfold _pearson_r at hr
    dsimp only at hr
    split_ifs at hr with h1 h2
    have hn : 5 ≤ min xs.length ys.length := by
      simpa [min_data_points] using h1
    set n := min xs.length ys.length with hn_def
    set vx := listSqDev (xs.take n) with hvx_def
    set vy := listSqDev (ys.take n) with hvy_def
    set cv := listCoDev (xs.take n) (ys.take n) with hcv_def
    have hvx0 : (0 : ℝ) < (vx : ℝ) := by
      have := lt_of_le_of_ne (listSqDev_nonneg (xs.take n))
        (fun h => (not_or.mp h2).1 h.symm)
      exact_mod_cast this
    have hvy0 : (0 : ℝ) < (vy : ℝ) := by
      have := lt_of_le_of_ne (listSqDev_nonneg (ys.take n))
        (fun h => (not_or.mp h2).2 h.symm)
      exact_mod_cast this
    have hN0 : (0 : ℝ) < (n : ℝ) := by
      have : 0 < n := by omega
      exact_mod_cast this
    have hr2 : r = (cv : ℝ) / Real.sqrt ((vx : ℝ) * (vy : ℝ)) := by
      have := Option.some.inj hr
      rw [← this]
      push_cast
      ring_nf
    rw [hr2]
    unfold pearson_spec
    dsimp only
    rw [← hn_def, ← hvx_def, ← hvy_def, ← hcv_def]
    push_cast
    have hsplit : (vx : ℝ) / (n : ℝ) * ((vy : ℝ) / (n : ℝ))
        = (vx : ℝ) * (vy : ℝ) / ((n : ℝ) ^ 2) := by
      ring
    rw [hsplit, Real.sqrt_div (by positivity), Real.sqrt_sq hN0.le]
    have hs0 : (0 : ℝ) < Real.sqrt ((vx : ℝ) * (vy : ℝ)) :=
      Real.sqrt_pos.mpr (by positivity)
    field_simp
  · intro c hc
    unfold _pearson_r
    dsimp only
    split_ifs with h1 h2
    · rfl
    · rfl
    · exfalso
      apply h2
      left
      apply listSqDev_const _ c
      intro x hx
      exact hc x (List.mem_of_mem_take hx)

/-- Witness for C2: four perfectly correlated points are below the minimum
sample size, hence undefined; and a five-point constant series against a
varying one is undefined by zero variance. -/
theorem pearson_r_characterization_witness :
    _pearson_r [1, 2, 3, 4] [2, 4, 6, 8] = none
    ∧ _pearson_r [3, 3, 3, 3, 3] [1, 2, 3, 4, 5] = none :=
  ⟨(pearson_r_characterization [1, 2, 3, 4] [2, 4, 6, 8]).1.mpr
      (Or.inl (by decide)),
    (pearson_r_characterization [3, 3, 3, 3, 3] [1, 2, 3, 4, 5]).2.2 3
      (by decide)⟩

/-- Inversion: whatever record divergeCheck emits for a table entry carries
the entry's symbols and baseline and satisfies all the emission conditions. -/
theorem divergeCheck_some_inv (snapshots : Snapshots)
    (entry : (String × String) × ℚ) (p : DivergingPair)
    (h : divergeCheck snapshots entry = some p) :
    diverging_baseline_threshold ≤ entry.2
    ∧ snapshots.lookup entry.1.1 = some (some p.change_pct_a)
    ∧ snapshots.lookup entry.1.2 = some (some p.change_pct_b)
    ∧ comovement_min_change_pct ≤ |p.change_pct_a|
    ∧ comovement_min_change_pct ≤ |p.change_pct_b|
    ∧ ¬ sameDirection p.change_pct_a p.change_pct_b
    ∧ p.symbol_a = entry.1.1 ∧ p.symbol_b = entry.1.2
    ∧ p.baseline_r = entry.2 := by
  obtain ⟨⟨a, b⟩, e⟩ := entry
  rcases lt_or_le e diverging_baseline_threshold with h1 | h1
  · simp only [divergeCheck, if_pos h1] at h
    exact absurd h (by simp)
  · cases ha : snapshots.lookup a with
    | none => simp [divergeCheck, if_neg (not_lt.mpr h1), ha] at h
    | some pa? =>
      cases pa? with
      | none => simp [divergeCheck, if_neg (not_lt.mpr h1), ha] at h
      | some pa =>
        cases hb : snapshots.lookup b with
        | none => simp [divergeCheck, if_neg (not_lt.mpr h1), ha, hb] at h
        | some pb? =>
          cases pb? with
          | none => simp [divergeCheck, if_neg (not_lt.mpr h1), ha, hb] at h
          | some pb =>
            simp only [divergeCheck, if_neg (not_lt.mpr h1), ha, hb] at h
            split_ifs at h with h2 h3
            have hp := Option.some.inj h
            subst hp
            push_neg at h2
            exact ⟨h1, rfl, rfl, h2.1, h2.2, h3, rfl, rfl, rfl⟩

/-- Emission: a table entry whose members both have changes that clear the
minimum-change magnitude, with a baseline at or above the diverging
threshold and opposite-direction moves, makes divergeCheck emit the record
built from that entry. -/
theorem divergeCheck_emits (snapshots : Snapshots) (a b : String)
    (e pa pb : ℚ)
    (ha : snapshots.lookup a = some (some pa))
    (hb : snapshots.lookup b = some (some pb))
    (hthr : diverging_baseline_threshold ≤ e)
    (hpa : comovement_min_change_pct ≤ |pa|)
    (hpb : comovement_min_change_pct ≤ |pb|)
    (hdir : ¬ sameDirection pa pb) :
    divergeCheck snapshots ((a, b), e)
      = some ⟨a, b, _label a, _label b, pa, pb, e⟩ := by
  simp only [divergeCheck, if_neg (not_lt.mpr hthr), ha, hb]
  rw [if_neg (by push_neg; exact ⟨hpa, hpb⟩), if_neg hdir]

/-- C3 (amended): for every snapshot map, the diverging-pair detector emits
the DivergingPair built from a baseline-table entry exactly when the entry's
baseline correlation is at or above the diverging threshold (default 0.5),
both members have a percent change whose magnitude is at least the
minimum-change threshold, and the two moved in opposite (not the same)
directions; the emitted record carries that entry's baseline correlation.
(The original claim required the baseline strictly above the threshold and
the magnitudes strictly above the minimum; the code uses non-strict
comparisons on both.) -/
theorem diverging_pairs_characterization (snapshots : Snapshots)
    (a b : String) (e pa pb : ℚ)
    (hmem : ((a, b), e) ∈ BASELINE_CORRELATIONS)
    (ha : snapshots.lookup a = some (some pa))
    (hb : snapshots.lookup b = some (some pb)) :
    ((⟨a, b, _label a, _label b, pa, pb, e⟩ : DivergingPair)
        ∈ _detect_diverging_pairs snapshots)
      ↔ (diverging_baseline_threshold ≤ e
          ∧ comovement_min_change_pct ≤ |pa|
          ∧ comovement_min_change_pct ≤ |pb|
          ∧ ¬ sameDirection pa pb) := by
  constructor
  · intro hp
    obtain ⟨entry, hentry, hcheck⟩ := List.mem_filterMap.mp hp
    obtain ⟨hthr, ha2, hb2, hpa, hpb, hdir, hsa, hsb, hbr⟩ :=
      divergeCheck_some_inv snapshots entry _ hcheck
    refine ⟨?_, hpa, hpb, hdir⟩
    have hbr2 : e = entry.2 := hbr
    rw [hbr2]
    exact hthr
  · rintro ⟨hthr, hpa, hpb, hdir⟩
    exact List.mem_filterMap.mpr ⟨((a, b), e), hmem,
      divergeCheck_emits snapshots a b e pa pb ha hb hthr hpa hpb hdir⟩

/-- Counterexample for C3: with CPER at +0.3 and SPX at -0.3 — the baseline
of the (CPER, SPX) pair is exactly the diverging threshold 0.5 and both
magnitudes are exactly the minimum-change threshold 0.3 — a DivergingPair is
still emitted, refuting the claim that emission requires the baseline
strictly above the threshold and magnitudes strictly above the minimum. -/
theorem diverging_pairs_strictness_counterexample :
    ((⟨"CPER", "SPX", "Copper (CPER)", "S&P 500", 3/10, -(3/10), 1/2⟩ :
        DivergingPair)
      ∈ _detect_diverging_pairs [("CPER", some (3/10)), ("SPX", some (-(3/10)))])
    ∧ ¬ diverging_baseline_threshold < (1/2 : ℚ)
    ∧ ¬ comovement_min_change_pct < |(3/10 : ℚ)|
    ∧ ¬ comovement_min_change_pct < |(-(3/10) : ℚ)| := by
  refine ⟨?_, by decide, by decide, by decide⟩
  decide

/-- Witness for C3 (amended): NDX up 1 percent and SPX down 1 percent (a
baseline-0.9 pair) yields an emitted DivergingPair carrying baseline 0.9. -/
theorem diverging_pairs_characterization_witness :
    (⟨"NDX", "SPX", _label "NDX", _label "SPX", 1, -1, 9/10⟩ : DivergingPair)
      ∈ _detect_diverging_pairs [("NDX", some 1), ("SPX", some (-1))] :=
  (diverging_pairs_characterization
      [("NDX", some 1), ("SPX", some (-1))] "NDX" "SPX" (9/10) 1 (-1)
      (by decide) rfl rfl).mpr (by decide)

/-- C6 (amended): in the single-day anomaly detector — which is one pass of
the per-pair body over the baseline table — a baseline pair whose members
both have a present percent change is skipped unless at least one magnitude
is at least the minimum-change threshold; when not skipped, the three
clauses (baseline below -0.5 with same-direction moves giving
broken_correlation; absolute baseline below 0.3 with same-direction moves
both at least the threshold giving unexpected_convergence; baseline above
0.5 with opposite-direction moves both at least the threshold giving
broken_correlation) are checked independently and every clause that holds
appends its own record.  (The original claim read the magnitude conditions
as strict; the code uses non-strict comparisons.) -/
theorem anomalies_1d_pair_characterization (snapshots : Snapshots)
    (a b : String) (e pa pb : ℚ)
    (ha : snapshots.lookup a = some (some pa))
    (hb : snapshots.lookup b = some (some pb)) :
    _detect_1d_anomalies snapshots
      = BASELINE_CORRELATIONS.flatMap (pairAnomalies1d snapshots)
    ∧ pairAnomalies1d snapshots ((a, b), e)
      = if ¬ (comovement_min_change_pct ≤ |pa|
              ∨ comovement_min_change_pct ≤ |pb|) then []
        else
          (if e < -(1/2) ∧ sameDirection pa pb then
            [brokenSameRec a b e pa pb] else [])
          ++ (if |e| < 3/10 ∧ sameDirection pa pb
                ∧ comovement_min_change_pct ≤ |pa|
                ∧ comovement_min_change_pct ≤ |pb| then
            [convergenceRec a b e pa pb] else [])
          ++ (if 1/2 < e ∧ ¬ sameDirection pa pb
                ∧ comovement_min_change_pct ≤ |pa|
                ∧ comovement_min_change_pct ≤ |pb| then
            [brokenOppositeRec a b e pa pb] else []) := by
  refine ⟨rfl, ?_⟩
  simp only [pairAnomalies1d, ha, hb, not_or, not_le]

/-- Witness for C6 (amended): SPX up 1 percent and VIXY up 0.5 percent (a
baseline -0.8 pair moving the same way) produce exactly the first clause's
broken_correlation record. -/
theorem anomalies_1d_pair_characterization_witness :
    pairAnomalies1d [("SPX", some 1), ("VIXY", some (1/2))]
        (("SPX", "VIXY"), -(8/10))
      = [brokenSameRec "SPX" "VIXY" (-(8/10)) 1 (1/2)] :=
  ((anomalies_1d_pair_characterization
      [("SPX", some 1), ("VIXY", some (1/2))] "SPX" "VIXY" (-(8/10)) 1 (1/2)
      rfl rfl).2).trans (by decide)

/-- Counterexample for C6: with SPX and VIXY both at exactly +0.3 — neither
magnitude strictly exceeds the 0.3 minimum-change threshold — the pair is
not skipped: the detector still emits the first clause's broken_correlation
record for this baseline -0.8 pair. -/
theorem anomalies_1d_boundary_counterexample :
    ¬ comovement_min_change_pct < |(3/10 : ℚ)|
    ∧ _detect_1d_anomalies [("SPX", some (3/10)), ("VIXY", some (3/10))]
        = [brokenSameRec "SPX" "VIXY" (-(8/10)) (3/10) (3/10)] := by
  refine ⟨by decide, ?_⟩
  decide

/-- A (scarcity, risk) combination with no baseline entry for its canonical
pair never produces a scarcity anomaly. -/
theorem scarcityCheck_baseline_none (pair_correlations : PairMatrix)
    (scarcity risk : String)
    (h : BASELINE_CORRELATIONS.lookup (_normalize_pair scarcity risk) = none) :
    scarcityCheck pair_correlations scarcity risk = none := by
  unfold scarcityCheck
  dsimp only
  rw [h]
  cases pair_correlations.lookup (_normalize_pair scarcity risk) <;> rfl

/-- C7 (code bug): the scarcity detector looks up pairs of URA/LIT/REMX
against SPY and QQQ, but the baseline table (and the tracked universe) use
SPX and NDX, so no candidate pair ever has a baseline entry and the
detector returns the empty list on every correlation matrix — in
particular on the repository's own test fixture, a matrix holding the
(SPX, URA) pair with correlation -0.20, which the spec (and the repo's
test) expect to be flagged since -0.20 is below the 0.40 baseline minus
the 0.4 deviation threshold. -/
theorem scarcity_divergence_never_fires :
    (∀ pair_correlations : PairMatrix,
      _detect_scarcity_divergence pair_correlations = [])
    ∧ _detect_scarcity_divergence
        [(("SPX", "URA"), ⟨"SPX", "URA", -(1/5), 20⟩)] = []
    ∧ BASELINE_CORRELATIONS.lookup ("SPX", "URA") = some (2/5)
    ∧ (-(1/5) : ℚ) < 2/5 - anomaly_deviation_threshold := by
  have hall : ∀ pair_correlations : PairMatrix,
      _detect_scarcity_divergence pair_correlations = [] := by
    intro pcs
    have h1 := scarcityCheck_baseline_none pcs "URA" "SPY" (by decide)
    have h2 := scarcityCheck_baseline_none pcs "URA" "QQQ" (by decide)
    have h3 := scarcityCheck_baseline_none pcs "LIT" "SPY" (by decide)
    have h4 := scarcityCheck_baseline_none pcs "LIT" "QQQ" (by decide)
    have h5 := scarcityCheck_baseline_none pcs "REMX" "SPY" (by decide)
    have h6 := scarcityCheck_baseline_none pcs "REMX" "QQQ" (by decide)
    simp [_detect_scarcity_divergence, _SCARCITY_SYMBOLS, _RISK_SYMBOLS,
      h1, h2, h3, h4, h5, h6]
  exact ⟨hall, hall _, by decide, by norm_num [anomaly_deviation_threshold]⟩

/-- insertLe grows a list by one element. -/
theorem length_insertLe {α : Type} (le : α → α → Bool) (x : α) :
    ∀ l : List α, (insertLe le x l).length = l.length + 1 := by
  intro l
  induction l with
  | nil => rfl
  | cons y ys ih =>
    unfold insertLe
    split_ifs <;> simp [ih]

/-- stableSort preserves length. -/
theorem length_stableSort {α : Type} (le : α → α → Bool) :
    ∀ l : List α, (stableSort le l).length = l.length := by
  intro l
  induction l with
  | nil => rfl
  | cons x xs ih => simp [stableSort, length_insertLe, ih]

/-- Every group one direction pass emits has at least two symbols. -/
theorem mkDirectionGroups_min_size (direction : String)
    (assets : List (String × ℚ)) (g : CoMovingGroup)
    (hg : g ∈ mkDirectionGroups direction assets) : 2 ≤ g.symbols.length := by
  unfold mkDirectionGroups at hg
  split_ifs at hg with h
  · simp at hg
  · obtain ⟨cluster, -, hsome⟩ := List.mem_filterMap.mp hg
    split_ifs at hsome with hlen
    have := Option.some.inj hsome
    subst this
    simpa using not_lt.mp hlen

/-- C8: neither grouping algorithm ever emits a CoMovingGroup with fewer
than 2 members: every emitted group has at least 2 symbols, for every
input. -/
theorem groups_have_at_least_two_members :
    (∀ (snapshots : Snapshots) (g : CoMovingGroup),
      g ∈ _group_by_comovement snapshots → 2 ≤ g.symbols.length)
    ∧ (∀ (pair_correlations : PairMatrix)
        (returns_by_symbol : ReturnsBySymbol) (threshold : ℚ)
        (g : CoMovingGroup),
      g ∈ _group_by_correlation pair_correlations returns_by_symbol threshold
        → 2 ≤ g.symbols.length) := by
  constructor
  · intro snapshots g hg
    unfold _group_by_comovement at hg
    rcases List.mem_append.mp hg with h | h
    · exact mkDirectionGroups_min_size _ _ _ h
    · exact mkDirectionGroups_min_size _ _ _ h
  · intro pcs rbs threshold g hg
    unfold _group_by_correlation at hg
    obtain ⟨group, -, hsome⟩ := List.mem_filterMap.mp hg
    split_ifs at hsome with hlen
    have := Option.some.inj hsome
    subst this
    simpa [length_stableSort] using not_lt.mp hlen

/-- Witness for C8: both algorithms, run on concrete inputs that produce a
group, emit groups of at least two members. -/
theorem groups_have_at_least_two_members_witness :
    2 ≤ (CoMovingGroup.mk "up" (21/10) ["NDX", "SPX"]
        ["Nasdaq 100", "S&P 500"]).symbols.length
    ∧ 2 ≤ (CoMovingGroup.mk "up" 0 ["A", "B"] ["A", "B"]).symbols.length :=
  ⟨groups_have_at_least_two_members.1
      [("NDX", some (11/5)), ("SPX", some 2)] _ (by decide),
    groups_have_at_least_two_members.2
      [(("A", "B"), ⟨"A", "B", 9/10, 9⟩)] [] correlation_threshold _
      (by decide)⟩

/-- C10: a concrete correlation matrix — pairs (A,B), (C,D), (B,C) in
descending correlation order, all above the 0.7 threshold — on which the
greedy merge emits two distinct groups that both contain C: the (B,C) pair
merges into the group {A,B} without removing C from {C,D}, so the emitted
groups are not disjoint. -/
theorem correlation_grouping_overlap :
    ∃ g1 g2 : CoMovingGroup,
      g1 ∈ _group_by_correlation
          [(("A", "B"), ⟨"A", "B", 9/10, 9⟩),
            (("C", "D"), ⟨"C", "D", 85/100, 9⟩),
            (("B", "C"), ⟨"B", "C", 8/10, 9⟩)] [] correlation_threshold
      ∧ g2 ∈ _group_by_correlation
          [(("A", "B"), ⟨"A", "B", 9/10, 9⟩),
            (("C", "D"), ⟨"C", "D", 85/100, 9⟩),
            (("B", "C"), ⟨"B", "C", 8/10, 9⟩)] [] correlation_threshold
      ∧ g1 ≠ g2 ∧ "C" ∈ g1.symbols ∧ "C" ∈ g2.symbols := by
  refine ⟨⟨"up", 0, ["A", "B", "C"], ["A", "B", "C"]⟩,
    ⟨"up", 0, ["C", "D"], ["C", "D"]⟩, ?_, ?_, ?_, ?_, ?_⟩ <;> decide

end MarketPicture
